import Mathlib

/-!
Verification development for the realtime_chat repository.

The frontend (React) lives under `frontend/src`; the pieces embedded here are
`services/websocket.js` (class `WebSocketService`), `components/ChatWindow.jsx`
(the chat component's message/typing handlers and the send handler) and
`context/AuthContext.jsx` (the `logout` action).  The backend (Django) message
store and rate limiter are not among the provided sources, so those two are
modelled from the specification text and marked as such in their doc comments.

JSON values are embedded as a small inductive type; a JS object is a list of
key/value pairs, and JS truthiness is made explicit where the code relies on it.
-/

/-- A JSON value as manipulated by the frontend code.  `null` also stands for
JS `undefined` where a missing property is read. -/
inductive Json where
  | null : Json
  | bool : Bool → Json
  | num : Int → Json
  | str : String → Json
  | obj : List (String × Json) → Json

/-- Property access `o.k` on a JSON object: the value of the first binding of
key `k`, or `none` (JS `undefined`) when the key is absent or the value is not
an object. -/
def Json.field : Json → String → Option Json
  | .obj fields, k => fields.lookup k
  | _, _ => none

/-- JS truthiness of a possibly-missing value: `undefined`, `null`, `false`,
`0` and `""` are falsy, everything else is truthy. -/
def truthy : Option Json → Bool
  | none => false
  | some .null => false
  | some (.bool b) => b
  | some (.num n) => n != 0
  | some (.str s) => s != ""
  | some (.obj _) => true

/-- JS `String.prototype.trim()`: strip leading and trailing whitespace.
Defined over the character list so that it is fully executable. -/
def jsTrim (s : String) : String :=
  String.mk
    (((s.data.dropWhile Char.isWhitespace).reverse.dropWhile
        Char.isWhitespace).reverse)

/-- The browser `WebSocket.OPEN` readyState constant. -/
def wsOPEN : Nat := 1

/-- A browser WebSocket handle; only `readyState` matters to the service. -/
structure Socket where
  readyState : Nat
deriving Repr, DecidableEq

/-- State of the `WebSocketService` singleton (`services/websocket.js`).
Handlers are identified by reference; we model each handler reference as a
`Nat`, and each handler list as the list of registered references in
registration order. -/
structure WSService where
  socket : Option Socket
  conversationId : Option String
  messageHandlers : List Nat
  typingHandlers : List Nat
  connectionHandlers : List Nat
  errorHandlers : List Nat
deriving Repr, DecidableEq

namespace WSService

/-- The constructor: all fields null / empty. -/
def init : WSService :=
  { socket := none, conversationId := none, messageHandlers := [],
    typingHandlers := [], connectionHandlers := [], errorHandlers := [] }

/-- `disconnect()`: if a socket exists, close it and null out both the socket
and the conversation id; otherwise do nothing. -/
def disconnect (s : WSService) : WSService :=
  match s.socket with
  | some _ => { s with socket := none, conversationId := none }
  | none => s

/-- `connect(conversationId)`: if the current socket is open, disconnect
first; then store the conversation id and a fresh socket (a new browser
WebSocket starts in the CONNECTING state, readyState 0). -/
def connect (cid : String) (s : WSService) : WSService :=
  let s1 :=
    match s.socket with
    | some sk => if sk.readyState = wsOPEN then s.disconnect else s
    | none => s
  { s1 with conversationId := some cid, socket := some { readyState := 0 } }

/-- `isConnected()`: the socket exists and its readyState is OPEN. -/
def isConnected (s : WSService) : Bool :=
  match s.socket with
  | some sk => sk.readyState = wsOPEN
  | none => false

/-- `sendMessage(content)`: when the socket is open, send the JSON frame
with exactly the two fields `type: "message"` and `content`; otherwise send
nothing (an error is logged). -/
def sendMessage (s : WSService) (content : String) : Option Json :=
  if s.isConnected then
    some (.obj [("type", .str "message"), ("content", .str content)])
  else none

/-- `sendTyping(isTyping)`: when the socket is open, send the JSON frame
with exactly the two fields `type: "typing"` and `is_typing`; otherwise send
nothing. -/
def sendTyping (s : WSService) (b : Bool) : Option Json :=
  if s.isConnected then
    some (.obj [("type", .str "typing"), ("is_typing", .bool b)])
  else none

/-- `sendReadReceipt()`: when the socket is open, send the JSON frame whose
only field is `type: "read"`; otherwise send nothing. -/
def sendReadReceipt (s : WSService) : Option Json :=
  if s.isConnected then some (.obj [("type", .str "read")]) else none

/-- `onMessage(handler)`: push the handler onto the message-handler list. -/
def onMessage (h : Nat) (s : WSService) : WSService :=
  { s with messageHandlers := s.messageHandlers ++ [h] }

/-- The unsubscribe closure returned by `onMessage(handler)`: replace the
message-handler list by the list filtered to the handlers distinct from
`handler` (JS `filter((h) => h !== handler)`). -/
def offMessage (h : Nat) (s : WSService) : WSService :=
  { s with messageHandlers := s.messageHandlers.filter (· ≠ h) }

/-- `onTyping(handler)`: push the handler onto the typing-handler list. -/
def onTyping (h : Nat) (s : WSService) : WSService :=
  { s with typingHandlers := s.typingHandlers ++ [h] }

/-- The unsubscribe closure returned by `onTyping(handler)`. -/
def offTyping (h : Nat) (s : WSService) : WSService :=
  { s with typingHandlers := s.typingHandlers.filter (· ≠ h) }

/-- `onConnection(handler)`: push the handler onto the connection-handler
list. -/
def onConnection (h : Nat) (s : WSService) : WSService :=
  { s with connectionHandlers := s.connectionHandlers ++ [h] }

/-- The unsubscribe closure returned by `onConnection(handler)`. -/
def offConnection (h : Nat) (s : WSService) : WSService :=
  { s with connectionHandlers := s.connectionHandlers.filter (· ≠ h) }

/-- `onError(handler)`: push the handler onto the error-handler list. -/
def onError (h : Nat) (s : WSService) : WSService :=
  { s with errorHandlers := s.errorHandlers ++ [h] }

/-- The unsubscribe closure returned by `onError(handler)`. -/
def offError (h : Nat) (s : WSService) : WSService :=
  { s with errorHandlers := s.errorHandlers.filter (· ≠ h) }

/-- The service invariant implicit in the code: the socket is null exactly
when the conversation id is null. -/
def inv (s : WSService) : Prop :=
  s.socket = none ↔ s.conversationId = none

end WSService

/-- A connected service state: an open socket bound to conversation "c",
no handlers registered.  Used as a concrete evaluation point. -/
def openSvc : WSService :=
  { socket := some { readyState := wsOPEN }, conversationId := some "c",
    messageHandlers := [], typingHandlers := [], connectionHandlers := [],
    errorHandlers := [] }

/-- State of the `ChatWindow` component (`components/ChatWindow.jsx`) as far
as the message list, the input field, the connection flag and the typing
indicator are concerned.  `typingUser` holds the value passed to
`setTypingUser`; `deadline` is the absolute firing time of the pending
`setTimeout` stored in `typingTimeoutRef`, if any. -/
structure ChatWindowState where
  messages : List Json
  newMessage : String
  connected : Bool
  typingUser : Option Json
  deadline : Option Nat

/-- The handler `ChatWindow` registers via `onMessage`: append the received
message payload to the displayed list (`setMessages((prev) => [...prev,
message])`). -/
def chatOnMessage (m : Json) (s : ChatWindowState) : ChatWindowState :=
  { s with messages := s.messages ++ [m] }

/-- The handler `ChatWindow` registers via `onTyping`, called at time `now`
with the typing event `data`: if `data.is_typing` is truthy, display
`data.user_name` and (re)arm a 3000 ms timeout that will clear the
indicator; otherwise clear the indicator at once (the pending timeout, if
any, is left armed — when it fires it clears an already-clear indicator). -/
def chatOnTyping (now : Nat) (data : Json) (s : ChatWindowState) :
    ChatWindowState :=
  if truthy (data.field "is_typing") then
    { s with typingUser := data.field "user_name",
             deadline := some (now + 3000) }
  else
    { s with typingUser := none }

/-- The `setTimeout` callback scheduled by the typing handler, run when the
clock reaches the armed deadline: clear the typing indicator. -/
def fireTypingTimeout (now : Nat) (s : ChatWindowState) : ChatWindowState :=
  match s.deadline with
  | some d => if d ≤ now then { s with typingUser := none, deadline := none }
              else s
  | none => s

/-- `WebSocketService.handleMessage` dispatch for a frame of type
`"message"`: call every registered message handler with `data.message`
(each handler is a state transformer on the component state; a missing
payload is passed as JS `undefined`, modelled by `Json.null`). -/
def dispatchMessageEvent (handlers : List (Json → ChatWindowState → ChatWindowState))
    (data : Json) (s : ChatWindowState) : ChatWindowState :=
  match data.field "type" with
  | some (.str "message") =>
      handlers.foldl (fun st h => h ((data.field "message").getD .null) st) s
  | _ => s

/-- `ChatWindow.handleSendMessage`: if the trimmed input is empty or the
connection flag is down, do nothing; otherwise hand the trimmed input to
`WebSocketService.sendMessage` (which emits the frame only when the socket
is open) and clear the input.  The returned pair is the new component state
and the frame put on the wire, if any. -/
def handleSendMessage (svc : WSService) (s : ChatWindowState) :
    ChatWindowState × Option Json :=
  if jsTrim s.newMessage = "" ∨ s.connected = false then (s, none)
  else ({ s with newMessage := "" }, svc.sendMessage (jsTrim s.newMessage))

/-- State of `AuthContext`'s provider: the current user (`null` when logged
out) and the initial-load flag. -/
structure AuthState where
  user : Option Json
  loading : Bool

/-- `AuthContext.isAuthenticated`: the JS double negation `!!user`. -/
def isAuthenticated (s : AuthState) : Bool :=
  s.user.isSome

/-- `AuthProvider.logout`: await the logout API call inside a try/catch (a
rejection is only logged), then unconditionally `setUser(null)`.  The
function is total: both the success and the failure of the API call fall
through to the same state update, and no exception escapes. -/
def logout (apiResult : Except String Unit) (s : AuthState) : AuthState :=
  match apiResult with
  | .ok _ => { s with user := none }
  | .error _ => { s with user := none }

/-! ### Message Store (modelled from the spec)

The backend store (`chat/redis_manager.py`) is not among the provided
sources; the definitions below are modelled from the spec: `append` assigns
a monotonic timestamp `max(wallClock, lastAppended + 1)` and refreshes a
per-conversation expiry of one retention window past the latest append;
`range` returns the page and the live total, and the whole history is
evicted together once the conversation's expiry passes.  Time is in whole
model ticks (seconds). -/

/-- Modelled from the spec: an immutable stored message.  `id` is a
monotone counter, so ids are time-sortable and unique. -/
structure StoredMessage where
  id : Nat
  senderId : Nat
  content : String
  createdAt : Nat
deriving Repr, DecidableEq

/-- Modelled from the spec: one conversation's slice of the Message Store.
`lastTs` is the timestamp of the latest append (0 before any), `expiry`
the instant the whole history is evicted. -/
structure ConvStore where
  msgs : List StoredMessage
  lastTs : Nat
  expiry : Nat
  nextId : Nat
deriving Repr, DecidableEq

/-- The content length bound of the store's validation. -/
def maxContentLen : Nat := 10000

/-- The retention window: 24 hours, in seconds. -/
def retention : Nat := 86400

/-- The hard maximum page size of `range`. -/
def maxRangeLimit : Nat := 100

def ConvStore.empty : ConvStore :=
  { msgs := [], lastTs := 0, expiry := 0, nextId := 0 }

/-- The store's failure mode on malformed appends. -/
inductive StoreError where
  | validationError
deriving Repr, DecidableEq

/-- Modelled from the spec: `append(conversationId, senderId, content)`.
Fails with a ValidationError when the content is empty or over the length
bound; otherwise assigns the timestamp `max(wallClock, lastAppended + 1)`
(logical-clock fallback against clock skew), appends the record and resets
the conversation's expiry to one retention window after this append. -/
def appendMsg (wallClock senderId : Nat) (content : String)
    (st : ConvStore) : Except StoreError (StoredMessage × ConvStore) :=
  if content = "" ∨ maxContentLen < content.length then
    .error .validationError
  else
    let ts := max wallClock (st.lastTs + 1)
    let m : StoredMessage :=
      { id := st.nextId, senderId := senderId, content := content,
        createdAt := ts }
    .ok (m, { msgs := st.msgs ++ [m], lastTs := ts,
              expiry := ts + retention, nextId := st.nextId + 1 })

/-- Whether the conversation's history is still live (not evicted) at `now`. -/
def liveAt (now : Nat) (st : ConvStore) : Bool :=
  decide (now < st.expiry)

/-- Modelled from the spec: `range(conversationId, limit, offset)` at read
time `now`: the limit is clamped to the hard maximum, an offset past the
end yields an empty slice, and the returned total is the number of live
messages (all-or-nothing: the whole history expires together). -/
def range (st : ConvStore) (now limit offset : Nat) :
    List StoredMessage × Nat :=
  if liveAt now st then
    ((st.msgs.drop offset).take (min limit maxRangeLimit), st.msgs.length)
  else ([], 0)

/-- Run a sequence of append requests `(wallClock, senderId, content)`
against a store; a failed append leaves the store unchanged. -/
def applyAppends (reqs : List (Nat × Nat × String)) (st : ConvStore) :
    ConvStore :=
  reqs.foldl
    (fun st r =>
      match appendMsg r.1 r.2.1 r.2.2 st with
      | .ok (_, st') => st'
      | .error _ => st) st

/-- The store's message order: by timestamp, ties broken by id. -/
def tsOrder (a b : StoredMessage) : Prop :=
  a.createdAt < b.createdAt ∨ (a.createdAt = b.createdAt ∧ a.id < b.id)

/-- Internal store invariant: messages are strictly increasing in
timestamp, and none is newer than `lastTs`. -/
def storeInv (st : ConvStore) : Prop :=
  st.msgs.Pairwise (fun a b => a.createdAt < b.createdAt) ∧
    ∀ m ∈ st.msgs, m.createdAt ≤ st.lastTs

/-! ### Rate Limiter (modelled from the spec)

The backend limiter (`chat/throttling.py`) is not among the provided
sources; the definitions below are modelled from the spec: a sliding-window
counter per `(userId, endpointClass)`, a denial carrying the remaining wait
until the oldest counted request ages out, and immediate rejection (no
queueing). -/

/-- Modelled from the spec: an endpoint class's ceiling — at most `limit`
requests per trailing `window` seconds. -/
structure RateLimiter where
  limit : Nat
  window : Nat
deriving Repr, DecidableEq

/-- The `history-read` class: 10 requests per minute. -/
def historyRead : RateLimiter := { limit := 10, window := 60 }

/-- Modelled from the spec: the per-`(userId, endpointClass)` sliding
window — the timestamps of the counted requests. -/
structure RateState where
  hist : List Nat
deriving Repr, DecidableEq

def RateState.init : RateState := ⟨[]⟩

/-- The outcome of one admission check: the verdict, the remaining wait
(0 when allowed), and the updated window. -/
structure RateDecision where
  allowed : Bool
  retryAfter : Nat
  next : RateState
deriving Repr, DecidableEq

/-- Modelled from the spec: `allow(userId, endpointClass)` at time `now`.
Entries older than the window age out; if fewer than `limit` remain the
request is admitted and counted, otherwise it is rejected at once with the
wait until the oldest counted request leaves the window. -/
def allow (rl : RateLimiter) (now : Nat) (st : RateState) : RateDecision :=
  let live := st.hist.filter (fun t => now < t + rl.window)
  if live.length < rl.limit then
    { allowed := true, retryAfter := 0, next := ⟨live ++ [now]⟩ }
  else
    { allowed := false,
      retryAfter := (live.min?.getD now) + rl.window - now,
      next := ⟨live⟩ }

/-- Run one user's calls at the given times through the limiter, collecting
each call's verdict and retry-after. -/
def runCalls (rl : RateLimiter) (times : List Nat) (st : RateState) :
    List (Bool × Nat) × RateState :=
  times.foldl
    (fun acc t =>
      let d := allow rl t acc.2
      (acc.1 ++ [(d.allowed, d.retryAfter)], d.next))
    ([], st)

/-! ### Theorems -/

/-- Pushing a fresh handler and then filtering it out restores the handler
list: the JS `filter((x) => x !== h)` removes exactly the pushed entry. -/
theorem filter_push_of_not_mem (l : List Nat) (h : Nat) (hh : h ∉ l) :
    (l ++ [h]).filter (· ≠ h) = l := by
  rw [List.filter_append]
  have h1 : l.filter (· ≠ h) = l := by
    rw [List.filter_eq_self]
    intro a ha
    have : a ≠ h := fun e => hh (e ▸ ha)
    simpa using this
  simp [h1]
  exact fun a ha e => hh (e ▸ ha)

/-- C7: whenever the socket is open, `sendReadReceipt()` sends exactly the
JSON frame with the single field `type: "read"`, and sends nothing when the
socket is not open. -/
theorem sendReadReceipt_exact_frame :
    ∀ s : WSService,
      (s.isConnected = true →
        s.sendReadReceipt = some (.obj [("type", .str "read")])) ∧
      (s.isConnected = false → s.sendReadReceipt = none) := by
  intro s
  constructor <;> intro h <;> simp [WSService.sendReadReceipt, h]

/-- Witness for C7 at a connected and at a fresh (socketless) service. -/
theorem sendReadReceipt_exact_frame_witness :
    openSvc.sendReadReceipt = some (.obj [("type", .str "read")]) ∧
    WSService.init.sendReadReceipt = none :=
  ⟨(sendReadReceipt_exact_frame openSvc).1 rfl,
   (sendReadReceipt_exact_frame WSService.init).2 rfl⟩

/-- C8: the service invariant "socket is null iff conversationId is null"
holds in the constructor's initial state and is preserved by `connect` and
`disconnect`. -/
theorem socket_conversation_null_invariant :
    WSService.inv WSService.init ∧
    (∀ (cid : String) (s : WSService), WSService.inv (s.connect cid)) ∧
    (∀ s : WSService, WSService.inv s → WSService.inv s.disconnect) := by
  refine ⟨?_, ?_, ?_⟩
  · simp [WSService.inv, WSService.init]
  · intro cid s
    simp [WSService.inv, WSService.connect]
  · intro s h
    unfold WSService.disconnect
    cases hs : s.socket with
    | some sk => simp [WSService.inv]
    | none => exact h

/-- Witness for C8: the invariant survives a disconnect of the connected
service. -/
theorem socket_conversation_null_invariant_witness :
    WSService.inv openSvc.disconnect :=
  socket_conversation_null_invariant.2.2 openSvc
    (by simp [WSService.inv, openSvc])

/-- C9: for a handler not currently registered, subscribing via
`onMessage` / `onTyping` / `onConnection` / `onError` and then running the
returned unsubscribe function restores the service state exactly — only
the new handler is removed, all others stay in place and in order. -/
theorem subscribe_unsubscribe_roundtrip :
    ∀ (h : Nat) (s : WSService),
      (h ∉ s.messageHandlers → (s.onMessage h).offMessage h = s) ∧
      (h ∉ s.typingHandlers → (s.onTyping h).offTyping h = s) ∧
      (h ∉ s.connectionHandlers → (s.onConnection h).offConnection h = s) ∧
      (h ∉ s.errorHandlers → (s.onError h).offError h = s) := by
  intro h s
  refine ⟨fun hh => ?_, fun hh => ?_, fun hh => ?_, fun hh => ?_⟩ <;>
    cases s <;>
    simp [WSService.onMessage, WSService.offMessage, WSService.onTyping,
      WSService.offTyping, WSService.onConnection, WSService.offConnection,
      WSService.onError, WSService.offError] <;>
    exact fun a ha e => hh (e ▸ ha)

/-- Witness for C9: subscribing handler 5 to the fresh service and
unsubscribing it is the identity, for all four handler kinds. -/
theorem subscribe_unsubscribe_roundtrip_witness :
    ((WSService.init.onMessage 5).offMessage 5 = WSService.init) ∧
    ((WSService.init.onTyping 5).offTyping 5 = WSService.init) ∧
    ((WSService.init.onConnection 5).offConnection 5 = WSService.init) ∧
    ((WSService.init.onError 5).offError 5 = WSService.init) :=
  ⟨(subscribe_unsubscribe_roundtrip 5 WSService.init).1 (by simp [WSService.init]),
   (subscribe_unsubscribe_roundtrip 5 WSService.init).2.1 (by simp [WSService.init]),
   (subscribe_unsubscribe_roundtrip 5 WSService.init).2.2.1 (by simp [WSService.init]),
   (subscribe_unsubscribe_roundtrip 5 WSService.init).2.2.2 (by simp [WSService.init])⟩

/-- C10: `logout` always clears the local session: whether the logout API
call succeeded or rejected, afterwards the user is null and
`isAuthenticated` is false; `logout` is total, so it never throws. -/
theorem logout_always_clears_session :
    ∀ (r : Except String Unit) (s : AuthState),
      (logout r s).user = none ∧ isAuthenticated (logout r s) = false := by
  intro r s
  cases r <;> simp [logout, isAuthenticated]

/-- C1 (counterexample): the typing protocol does not use the camelCase
spellings the claim gives.  On the connected service, `sendTyping(true)`
produces a frame that carries no field named `isTyping` (the flag travels
as `is_typing`), and the client's typing handler, fed an event spelled as
the claim says (`userName` / `isTyping: true`), finds `is_typing` missing
(falsy) and clears the indicator instead of displaying the name. -/
theorem typing_camel_case_counterexample :
    openSvc.sendTyping true =
      some (.obj [("type", .str "typing"), ("is_typing", .bool true)]) ∧
    (Json.obj [("type", .str "typing"), ("is_typing", .bool true)]).field
      "isTyping" = none ∧
    (chatOnTyping 0
      (.obj [("type", .str "typing"), ("userId", .num 1),
             ("userName", .str "Ann"), ("isTyping", .bool true)])
      { messages := [], newMessage := "", connected := true,
        typingUser := none, deadline := none }).typingUser = none :=
  ⟨rfl, rfl, rfl⟩

/-- C1 (amended): the typing protocol uses snake_case field spellings: for
every boolean b, `sendTyping(b)` on an open socket sends exactly
`type: "typing"`, `is_typing: b`, and the client's typing handler reads the
sender's name and flag from fields named `user_name` and `is_typing`. -/
theorem typing_protocol_snake_case :
    ∀ (svc : WSService) (b : Bool),
      (svc.isConnected = true →
        svc.sendTyping b =
          some (.obj [("type", .str "typing"), ("is_typing", .bool b)])) ∧
      (∀ (now uid : Nat) (name : String) (st : ChatWindowState),
        (chatOnTyping now
          (.obj [("type", .str "typing"), ("user_id", .num uid),
                 ("user_name", .str name), ("is_typing", .bool true)])
          st).typingUser = some (.str name) ∧
        (chatOnTyping now
          (.obj [("type", .str "typing"), ("user_id", .num uid),
                 ("user_name", .str name), ("is_typing", .bool false)])
          st).typingUser = none) := by
  intro svc b
  constructor
  · intro h
    simp [WSService.sendTyping, h]
  · intro now uid name st
    exact ⟨rfl, rfl⟩

/-- Witness for the amended C1: concrete frames on the connected service
and a concrete typing event for the handler. -/
theorem typing_protocol_snake_case_witness :
    openSvc.sendTyping false =
      some (.obj [("type", .str "typing"), ("is_typing", .bool false)]) ∧
    (chatOnTyping 7
      (.obj [("type", .str "typing"), ("user_id", .num 1),
             ("user_name", .str "Ann"), ("is_typing", .bool true)])
      { messages := [], newMessage := "", connected := true,
        typingUser := none, deadline := none }).typingUser =
      some (.str "Ann") :=
  ⟨(typing_protocol_snake_case openSvc false).1 rfl,
   ((typing_protocol_snake_case openSvc false).2 7 1 "Ann"
     { messages := [], newMessage := "", connected := true,
       typingUser := none, deadline := none }).1⟩

/-- C2: a `message` event is appended to the displayed list exactly once
by the registered ChatWindow handler (also for this client's own messages,
which arrive only as the broadcast echo), and `handleSendMessage` itself
never touches the message list — it only emits the frame and clears the
input. -/
theorem message_event_appends_exactly_once :
    ∀ (data m : Json) (st : ChatWindowState) (svc : WSService)
      (s0 : ChatWindowState),
      data.field "type" = some (.str "message") →
      data.field "message" = some m →
      dispatchMessageEvent [chatOnMessage] data st =
        { st with messages := st.messages ++ [m] } ∧
      (handleSendMessage svc s0).1.messages = s0.messages := by
  intro data m st svc s0 hty hmsg
  constructor
  · unfold dispatchMessageEvent
    rw [hty, hmsg]
    rfl
  · unfold handleSendMessage
    by_cases hc : jsTrim s0.newMessage = "" ∨ s0.connected = false <;>
      simp [hc]

/-- Witness for C2 at a concrete message event and component state. -/
theorem message_event_appends_exactly_once_witness :
    dispatchMessageEvent [chatOnMessage]
      (.obj [("type", .str "message"), ("message", .str "payload")])
      { messages := [.str "old"], newMessage := "", connected := true,
        typingUser := none, deadline := none } =
      { messages := [.str "old", .str "payload"], newMessage := "",
        connected := true, typingUser := none, deadline := none } ∧
    (handleSendMessage openSvc
      { messages := [.str "old"], newMessage := "hi", connected := true,
        typingUser := none, deadline := none }).1.messages = [.str "old"] :=
  message_event_appends_exactly_once
    (.obj [("type", .str "message"), ("message", .str "payload")])
    (.str "payload")
    { messages := [.str "old"], newMessage := "", connected := true,
      typingUser := none, deadline := none }
    openSvc
    { messages := [.str "old"], newMessage := "hi", connected := true,
      typingUser := none, deadline := none }
    rfl rfl

/-- C3: on an open socket `sendMessage(content)` emits exactly the frame
with fields `type: "message"` and `content` (no others), and every frame
`handleSendMessage` puts on the wire carries non-empty content, because the
component submits only the trimmed input and only when it is non-empty and
the connection is up — the client never triggers the empty-content
validation error. -/
theorem sendMessage_frame_nonempty_content :
    ∀ (svc : WSService) (content : String),
      (svc.isConnected = true →
        svc.sendMessage content =
          some (.obj [("type", .str "message"), ("content", .str content)])) ∧
      (∀ (s : ChatWindowState) (frame : Json),
        (handleSendMessage svc s).2 = some frame →
        ∃ c : String, frame.field "content" = some (.str c) ∧ c ≠ "") := by
  intro svc content
  constructor
  · intro h
    simp [WSService.sendMessage, h]
  · intro s frame hframe
    unfold handleSendMessage at hframe
    split at hframe
    · simp at hframe
    · rename_i hcond
      push_neg at hcond
      unfold WSService.sendMessage at hframe
      split at hframe
      · have hf : Json.obj [("type", .str "message"),
            ("content", .str (jsTrim s.newMessage))] = frame := by
          simpa using hframe
        refine ⟨jsTrim s.newMessage, ?_, hcond.1⟩
        rw [← hf]
        rfl
      · simp at hframe

/-- Witness for C3: the concrete frame for content "hi" on the connected
service, and the frame emitted for the input " hi " has non-empty
content. -/
theorem sendMessage_frame_nonempty_content_witness :
    openSvc.sendMessage "hi" =
      some (.obj [("type", .str "message"), ("content", .str "hi")]) ∧
    ∃ c : String,
      (Json.obj [("type", .str "message"),
        ("content", .str "hi")]).field "content" = some (.str c) ∧ c ≠ "" :=
  ⟨(sendMessage_frame_nonempty_content openSvc "hi").1 rfl,
   (sendMessage_frame_nonempty_content openSvc "hi").2
     { messages := [], newMessage := " hi ", connected := true,
       typingUser := none, deadline := none }
     (.obj [("type", .str "message"), ("content", .str "hi")]) rfl⟩

/-- C4: a typing-true event arms a 3000 ms timeout; before the deadline
the state is untouched, at or after the deadline the indicator is cleared;
a further typing-true event re-arms the timeout from its own receipt time;
and a typing-false event clears the indicator immediately.  Hence the
indicator never stays set forever absent further events. -/
theorem typing_indicator_ttl :
    ∀ (now : Nat) (data : Json) (st : ChatWindowState),
      (truthy (data.field "is_typing") = true →
        (chatOnTyping now data st).deadline = some (now + 3000) ∧
        (∀ t, t < now + 3000 →
          fireTypingTimeout t (chatOnTyping now data st) =
            chatOnTyping now data st) ∧
        (∀ t, now + 3000 ≤ t →
          (fireTypingTimeout t (chatOnTyping now data st)).typingUser =
            none) ∧
        (∀ (now2 : Nat) (data2 : Json),
          truthy (data2.field "is_typing") = true →
          (chatOnTyping now2 data2 (chatOnTyping now data st)).deadline =
            some (now2 + 3000))) ∧
      (truthy (data.field "is_typing") = false →
        (chatOnTyping now data st).typingUser = none) := by
  intro now data st
  constructor
  · intro h
    refine ⟨by simp [chatOnTyping, h], ?_, ?_, ?_⟩
    · intro t ht
      simp [chatOnTyping, fireTypingTimeout, h, Nat.not_le.mpr ht]
    · intro t ht
      simp [chatOnTyping, fireTypingTimeout, h, ht]
    · intro now2 data2 h2
      simp [chatOnTyping, h, h2]
  · intro h
    simp [chatOnTyping, h]

/-- Witness for C4 at a concrete typing-true event received at time 100:
the timeout fires at 3100 and clears the indicator; the matching
typing-false event clears it immediately. -/
theorem typing_indicator_ttl_witness :
    (fireTypingTimeout 3100 (chatOnTyping 100
      (.obj [("user_name", .str "Ann"), ("is_typing", .bool true)])
      { messages := [], newMessage := "", connected := true,
        typingUser := none, deadline := none })).typingUser = none ∧
    (chatOnTyping 100
      (.obj [("user_name", .str "Ann"), ("is_typing", .bool false)])
      { messages := [], newMessage := "", connected := true,
        typingUser := none, deadline := none }).typingUser = none :=
  ⟨((typing_indicator_ttl 100
      (.obj [("user_name", .str "Ann"), ("is_typing", .bool true)])
      { messages := [], newMessage := "", connected := true,
        typingUser := none, deadline := none }).1 rfl).2.2.1 3100
      (by omega),
   (typing_indicator_ttl 100
      (.obj [("user_name", .str "Ann"), ("is_typing", .bool false)])
      { messages := [], newMessage := "", connected := true,
        typingUser := none, deadline := none }).2 rfl⟩

/-- Counting with a constant predicate: the whole list or nothing.  Used
because the store evicts a conversation's history all at once. -/
theorem countP_const {α : Type} (l : List α) (b : Bool) :
    l.countP (fun _ => b) = if b then l.length else 0 := by
  induction l with
  | nil => simp
  | cons a l ih => cases b <;> simp [List.countP_cons, ih]

/-- The empty conversation store satisfies the store invariant. -/
theorem storeInv_empty : storeInv ConvStore.empty := by
  constructor <;> simp [ConvStore.empty, storeInv]

/-- A successful append strictly advances the conversation clock, records
its own timestamp as the new `lastTs`, and appends exactly one record. -/
theorem appendMsg_ok_bounds {w sen : Nat} {c : String} {st : ConvStore}
    {m : StoredMessage} {st2 : ConvStore}
    (hok : appendMsg w sen c st = .ok (m, st2)) :
    st.lastTs < m.createdAt ∧ st2.lastTs = m.createdAt ∧
      st2.msgs = st.msgs ++ [m] := by
  unfold appendMsg at hok
  split at hok
  · cases hok
  · simp only [Except.ok.injEq, Prod.mk.injEq] at hok
    obtain ⟨hm, hst⟩ := hok
    subst hm
    subst hst
    refine ⟨?_, rfl, rfl⟩
    show st.lastTs < max w (st.lastTs + 1)
    have h1 : st.lastTs + 1 ≤ max w (st.lastTs + 1) := le_max_right _ _
    omega

/-- A successful append preserves the store invariant. -/
theorem appendMsg_preserves_inv {w sen : Nat} {c : String} {st : ConvStore}
    {m : StoredMessage} {st2 : ConvStore} (h : storeInv st)
    (hok : appendMsg w sen c st = .ok (m, st2)) : storeInv st2 := by
  obtain ⟨hlt, hlast, hmsgs⟩ := appendMsg_ok_bounds hok
  constructor
  · rw [hmsgs, List.pairwise_append]
    refine ⟨h.1, List.pairwise_singleton _ _, ?_⟩
    intro a ha b hb
    simp only [List.mem_singleton] at hb
    subst hb
    exact lt_of_le_of_lt (h.2 a ha) hlt
  · rw [hmsgs]
    intro x hx
    rcases List.mem_append.mp hx with hx | hx
    · have := h.2 x hx
      omega
    · simp only [List.mem_singleton] at hx
      subst hx
      omega

/-- Any sequence of appends starting from an invariant-satisfying store
yields an invariant-satisfying store. -/
theorem storeInv_applyAppends (reqs : List (Nat × Nat × String)) :
    ∀ st, storeInv st → storeInv (applyAppends reqs st) := by
  induction reqs with
  | nil => intro st h; exact h
  | cons r reqs ih =>
    intro st h
    have hstep : applyAppends (r :: reqs) st =
        applyAppends reqs
          (match appendMsg r.1 r.2.1 r.2.2 st with
           | .ok (_, st2) => st2
           | .error _ => st) := rfl
    rw [hstep]
    apply ih
    cases hok : appendMsg r.1 r.2.1 r.2.2 st with
    | ok p =>
      cases p with
      | mk m st2 => exact appendMsg_preserves_inv h hok
    | error e => exact h

/-- A store satisfying the invariant answers `range` with a page sorted by
timestamp, ties broken by id. -/
theorem range_pairwise {st : ConvStore} (h : storeInv st)
    (now limit offset : Nat) :
    (range st now limit offset).1.Pairwise tsOrder := by
  unfold range
  split
  · have hsub : ((st.msgs.drop offset).take (min limit maxRangeLimit)).Sublist
        st.msgs :=
      (List.take_sublist _ _).trans (List.drop_sublist _ _)
    exact (h.1.imp fun hlt => Or.inl hlt).sublist hsub
  · simp

/-- The total returned by `range` is the number of live messages. -/
theorem range_total (st : ConvStore) (now limit offset : Nat) :
    (range st now limit offset).2 =
      st.msgs.countP (fun _ => liveAt now st) := by
  unfold range
  cases hl : liveAt now st <;> simp [hl, countP_const]

/-- C5: for every sequence of appends to one conversation, `range` returns
messages in non-decreasing `createdAt` order with ties broken by id, its
returned total equals the number of live (non-expired) messages, and every
successful append's timestamp is at least the previous append's timestamp
for that conversation, whatever the wall clock reads (clock skew). -/
theorem messageStore_order_total_monotone :
    ∀ (reqs : List (Nat × Nat × String)) (now limit offset : Nat),
      ((range (applyAppends reqs ConvStore.empty) now limit offset).1.Pairwise
        tsOrder) ∧
      ((range (applyAppends reqs ConvStore.empty) now limit offset).2 =
        (applyAppends reqs ConvStore.empty).msgs.countP
          (fun _ => liveAt now (applyAppends reqs ConvStore.empty))) ∧
      (∀ (w sen : Nat) (c : String) (st : ConvStore) (m : StoredMessage)
        (st2 : ConvStore),
        appendMsg w sen c st = .ok (m, st2) →
        st.lastTs ≤ m.createdAt ∧ st2.lastTs = m.createdAt) := by
  intro reqs now limit offset
  refine ⟨range_pairwise (storeInv_applyAppends reqs _ storeInv_empty) _ _ _,
    range_total _ _ _ _, ?_⟩
  intro w sen c st m st2 hok
  obtain ⟨h1, h2, _⟩ := appendMsg_ok_bounds hok
  exact ⟨le_of_lt h1, h2⟩

/-- Witness for C5: two appends with a skewed clock (wall clock 10 then 5);
the second message is stamped 11, the page read at time 20 is sorted, and
the totals line up. -/
theorem messageStore_order_total_monotone_witness :
    (range (applyAppends [(10, 1, "hi"), (5, 2, "yo")] ConvStore.empty)
      20 10 0).1.Pairwise tsOrder ∧
    ((applyAppends [(10, 1, "hi")] ConvStore.empty).lastTs ≤
        (⟨1, 2, "yo", 11⟩ : StoredMessage).createdAt ∧
      ({ msgs := [⟨0, 1, "hi", 10⟩, ⟨1, 2, "yo", 11⟩], lastTs := 11,
         expiry := 86411, nextId := 2 } : ConvStore).lastTs =
        (⟨1, 2, "yo", 11⟩ : StoredMessage).createdAt) :=
  ⟨(messageStore_order_total_monotone [(10, 1, "hi"), (5, 2, "yo")]
      20 10 0).1,
   (messageStore_order_total_monotone [] 0 0 0).2.2 5 2 "yo"
     (applyAppends [(10, 1, "hi")] ConvStore.empty) ⟨1, 2, "yo", 11⟩
     { msgs := [⟨0, 1, "hi", 10⟩, ⟨1, 2, "yo", 11⟩], lastTs := 11,
       expiry := 86411, nextId := 2 } (by rfl)⟩

/-- C6: for one user against the 10-per-minute history-read class, eleven
rapid calls see the first ten allowed and the eleventh denied with a
positive retry-after of 60; in general every denial carries a positive
retry-after, and `allow` recovers to true once every counted request has
aged out of the sliding window. -/
theorem rateLimiter_history_read :
    (runCalls historyRead (List.replicate 11 0) RateState.init).1 =
      List.replicate 10 (true, 0) ++ [(false, 60)] ∧
    (∀ (now : Nat) (st : RateState),
      (allow historyRead now st).allowed = false →
      1 ≤ (allow historyRead now st).retryAfter) ∧
    (∀ (now : Nat) (st : RateState),
      (∀ t ∈ st.hist, t + historyRead.window ≤ now) →
      (allow historyRead now st).allowed = true) := by
  refine ⟨by rfl, ?_, ?_⟩
  · intro now st hdenied
    unfold allow at hdenied ⊢
    by_cases hl :
        (st.hist.filter (fun t => now < t + historyRead.window)).length <
          historyRead.limit
    · simp [hl] at hdenied
    · simp only [hl, if_false, if_neg]
      have hne : st.hist.filter (fun t => now < t + historyRead.window) ≠ [] := by
        intro hnil
        rw [hnil] at hl
        exact hl (by simp [historyRead])
      obtain ⟨o, ho⟩ :
          ∃ o, (st.hist.filter
            (fun t => now < t + historyRead.window)).min? = some o := by
        cases hm : (st.hist.filter
            (fun t => now < t + historyRead.window)).min? with
        | none => exact absurd (List.min?_eq_none_iff.mp hm) hne
        | some o => exact ⟨o, rfl⟩
      have homem : o ∈ st.hist.filter (fun t => now < t + historyRead.window) :=
        List.min?_mem (fun a b => min_choice a b) ho
      have hwin : now < o + historyRead.window :=
        by simpa using (List.mem_filter.mp homem).2
      rw [ho]
      simp only [Option.getD_some]
      omega
  · intro now st haged
    have hnil : st.hist.filter (fun t => now < t + historyRead.window) = [] := by
      rw [List.filter_eq_nil_iff]
      intro t ht
      have := haged t ht
      simp only [decide_eq_true_eq, Nat.not_lt]
      omega
    unfold allow
    rw [hnil]
    simp [historyRead]

/-- Witness for C6: a full window of ten requests at time 0 makes a call at
time 0 denied with positive retry-after, and at time 61 the window has
drained and the call is allowed. -/
theorem rateLimiter_history_read_witness :
    1 ≤ (allow historyRead 0 ⟨List.replicate 10 0⟩).retryAfter ∧
    (allow historyRead 61 ⟨List.replicate 10 0⟩).allowed = true :=
  ⟨rateLimiter_history_read.2.1 0 ⟨List.replicate 10 0⟩ (by rfl),
   rateLimiter_history_read.2.2 61 ⟨List.replicate 10 0⟩
     (by
       intro t ht
       simp only [List.mem_replicate] at ht
       simp [historyRead, ht.2])⟩
